import Mathlib

/-!
Verification development for the federa group actor (src/federa/group.py).

Modelling conventions:
* Python JSON values are the inductive type Json; dictionaries are encoded
  as association chains (dnil / dcons) so equality is derivable.
* Flask abort(code, msg) is the error Err.abort code msg; an uncaught
  Python AttributeError (for example None.lower()) is Err.attributeError.
* The DynamoDB engine (bloop) is modelled as three in-memory tables keyed
  by id; engine.save is an unconditional upsert (UpdateItem semantics, the
  source passes no condition expression anywhere), engine.delete removes
  the row with the given key, and the one()/first() queries that raise
  ConstraintViolation on an empty result are modelled with find?.
* uuid4() results are passed to the handlers as explicit freshId
  arguments; collision freedom of generated ids is a hypothesis where a
  claim needs it.
* Flask url_for for the two endpoints .actor and .announce_activity is
  modelled by the injective functions urlForActor and urlForAnnounce.
* json.dumps at the write site and json.loads at both read sites of the
  stored object column form a round trip and are abstracted as the
  identity: the column keeps the Json value itself.
* The activity_actor_from_source decorator supplies the verified actor of
  every inbound activity, so the Activity model carries actor as a plain
  string; all other fields are raw optional JSON.
* Each handler returns the new database, the list of calls made to the
  external collaborators (accept_object, announce_object), and either a
  result or the error raised.
-/

deriving instance DecidableEq for Except

namespace Federa

/-- A JSON value as handled by the Python code; dictionaries are encoded as
association chains so that equality is derivable. -/
inductive Json where
  | str : String → Json
  | num : Int → Json
  | jbool : Bool → Json
  | dnil : Json
  | dcons : String → Json → Json → Json
deriving DecidableEq

/-- An error escaping a handler: a Flask abort with an HTTP status code and
message, or an uncaught Python AttributeError. -/
inductive Err where
  | abort : Nat → String → Err
  | attributeError : String → Err
deriving DecidableEq

/-- Row of the Group table (federa.model.Group). -/
structure GroupRec where
  id : String
  name : String
  summary : String
deriving DecidableEq

/-- Row of the GroupMember table: one membership edge. -/
structure GroupMember where
  id : String
  follower_id : String
  group_id : String
deriving DecidableEq

/-- Row of the GroupActivity table: one announce ledger record; the object
column stores the announced object identifier payload. -/
structure GroupActivity where
  id : String
  type : String
  group_id : String
  object : Json
deriving DecidableEq

/-- The three persisted tables. -/
structure DB where
  groups : List GroupRec
  members : List GroupMember
  activities : List GroupActivity
deriving DecidableEq

/-- An inbound activity after the actor has been verified by the external
signature layer: the verified actor URI and the raw object field. -/
structure Activity where
  actor : String
  object : Option Json
deriving DecidableEq

/-- A call made to an external collaborator during handling. -/
inductive ExtCall where
  | acceptObject : String → String → Activity → ExtCall
  | announceObject : String → Finset String → Json → List String → ExtCall
deriving DecidableEq

/-- The dictionary returned by serialize_announce. -/
structure SerializedAnnounce where
  id : String
  type : String
  actor : String
  object : Json
deriving DecidableEq

/-- Value returned by a handler: the string done, a serialized announce
record, or Python None. -/
inductive HandlerResult where
  | done : HandlerResult
  | announced : SerializedAnnounce → HandlerResult
  | noResult : HandlerResult
deriving DecidableEq

/-- Models url_for(".actor", actor_id, _external=True). -/
def urlForActor (actorId : String) : String :=
  "https://federa.example/actor/" ++ actorId

/-- Models url_for(".announce_activity", announce_id, _external=True). -/
def urlForAnnounce (announceId : String) : String :=
  "https://federa.example/activity/announce/" ++ announceId

def Json.isDict : Json → Bool
  | .dnil => true
  | .dcons _ _ _ => true
  | _ => false

def Json.lookup : Json → String → Option Json
  | .dcons k v rest, key => if k == key then some v else rest.lookup key
  | _, _ => none

/-- Python value.get(key): association lookup on a dictionary,
AttributeError on any other value. -/
def pyGet (j : Json) (key : String) : Except Err (Option Json) :=
  if j.isDict then .ok (j.lookup key)
  else .error (.attributeError "object has no attribute get")

/-- Character-wise lower-casing of a string, modelling Python str.lower
with an executable map over the characters. -/
def strLower (s : String) : String := ⟨s.data.map Char.toLower⟩

/-- Python value.lower() applied to the result of a .get: lower-cases a
string, AttributeError on None or any non-string value. -/
def pyLower : Option Json → Except Err String
  | some (.str s) => .ok (strLower s)
  | _ => .error (.attributeError "object has no attribute lower")

/-- find_group: point query on the Group table, None when absent. -/
def find_group (db : DB) (group_id : String) : Option GroupRec :=
  db.groups.find? (fun g => g.id == group_id)

/-- group_members: the by_group query, projecting follower ids. -/
def group_members (db : DB) (group_id : String) : List String :=
  (db.members.filter (fun m => m.group_id == group_id)).map (fun m => m.follower_id)

/-- Number of membership edges stored for a (group, follower) pair: the
count projection of the by_follower query in follow. -/
def pairCount (db : DB) (group_id follower : String) : Nat :=
  (db.members.filter (fun m => m.follower_id == follower && m.group_id == group_id)).length

/-- engine.save on a GroupMember row: unconditional upsert keyed by id. -/
def saveMember (db : DB) (m : GroupMember) : DB :=
  { db with members := db.members.filter (fun x => x.id != m.id) ++ [m] }

/-- engine.delete on a GroupMember row, keyed by id. -/
def deleteMember (db : DB) (memberId : String) : DB :=
  { db with members := db.members.filter (fun x => x.id != memberId) }

/-- engine.save on a GroupActivity row: unconditional upsert keyed by id. -/
def saveActivity (db : DB) (a : GroupActivity) : DB :=
  { db with activities := db.activities.filter (fun x => x.id != a.id) ++ [a] }

/-- engine.save on a Group row: unconditional upsert keyed by id. -/
def saveGroup (db : DB) (g : GroupRec) : DB :=
  { db with groups := db.groups.filter (fun x => x.id != g.id) ++ [g] }

/-- serialize_announce: the response dictionary for an announce record. -/
def serialize_announce (announce : GroupActivity) : SerializedAnnounce :=
  { id := urlForAnnounce announce.id
    type := announce.type
    actor := urlForActor announce.group_id
    object := announce.object }

/-- The Follow handler (group.py lines 52 to 73). -/
def follow (g : GroupRec) (follow_activity : Activity) (freshId : String) (db : DB) :
    DB × List ExtCall × Except Err HandlerResult :=
  let follower := follow_activity.actor
  if follow_activity.object ≠ some (Json.str (urlForActor g.id)) then
    (db, [], .error (.abort 400 "Wrong target"))
  else if pairCount db g.id follower > 0 then
    (db, [], .ok .done)
  else
    (saveMember db ⟨freshId, follower, g.id⟩,
     [.acceptObject g.id follower follow_activity], .ok .done)

/-- The Undo handler (group.py lines 76 to 104). -/
def undo (g : GroupRec) (undo_activity : Activity) (db : DB) :
    DB × List ExtCall × Except Err HandlerResult :=
  let follower := undo_activity.actor
  let action := undo_activity.object.getD Json.dnil
  match pyGet action "type" with
  | .error e => (db, [], .error e)
  | .ok tyv =>
    match pyLower tyv with
    | .error e => (db, [], .error e)
    | .ok ty =>
      if ty ≠ "follow" then (db, [], .ok .done)
      else
        match pyGet action "actor" with
        | .error e => (db, [], .error e)
        | .ok av =>
          if av ≠ some (Json.str follower) then
            (db, [], .error (.abort 400 "Inconsistant follow activity"))
          else
            match pyGet action "object" with
            | .error e => (db, [], .error e)
            | .ok tv =>
              if tv ≠ some (Json.str (urlForActor g.id)) then
                (db, [], .error (.abort 400 "Wrong target"))
              else
                match db.members.find?
                    (fun m => m.follower_id == follower && m.group_id == g.id) with
                | none => (db, [], .ok .done)
                | some membership => (deleteMember db membership.id, [], .ok .done)

/-- Extraction of the announced object identifier in create: a bare string
is taken as is, otherwise the id attribute of the embedded object. -/
def extractId : Json → Except Err (Option Json)
  | .str s => .ok (some (.str s))
  | d => pyGet d "id"

/-- The Create handler (group.py lines 107 to 143). The announce_uri value
is the Python one-tuple produced by the trailing comma on line 135,
modelled as a one-element list. -/
def create (g : GroupRec) (create_activity : Activity) (freshId : String) (db : DB) :
    DB × List ExtCall × Except Err HandlerResult :=
  match create_activity.object with
  | none => (db, [], .error (.abort 400 "activity not detailed"))
  | some activity_details =>
    match extractId activity_details with
    | .error e => (db, [], .error e)
    | .ok none => (db, [], .error (.abort 400 "not external activity id"))
    | .ok (some activity_id) =>
      let actor := create_activity.actor
      let members := (group_members db g.id).toFinset
      if actor ∉ members then
        (db, [], .error (.abort 401 "actor needs to be member of the group"))
      else
        let announce_uri := [urlForAnnounce freshId]
        let announce : GroupActivity := ⟨freshId, "Announce", g.id, activity_id⟩
        (saveActivity db announce,
         [.announceObject g.id (members.erase actor) activity_id announce_uri],
         .ok (.announced (serialize_announce announce)))

/-- The Delete handler (group.py lines 146 to 148): it only prints. -/
def delete (g : GroupRec) (follow_activity : Activity) (db : DB) :
    DB × List ExtCall × Except Err HandlerResult :=
  (db, [], .ok .noResult)

/-- The announce retrieval endpoint (group.py lines 167 to 178). -/
def announce_activity (db : DB) (announce_id : String) : Except Err SerializedAnnounce :=
  match db.activities.find? (fun a => a.id == announce_id) with
  | none => .error (.abort 404 "Not Found")
  | some announce =>
    if announce.type ≠ "Announce" then .error (.abort 404 "Not Found")
    else .ok (serialize_announce announce)

/-- make_group (group.py lines 184 to 206), after the required group_name
field has been read from the request body; name and summary keep their
source defaults when absent. -/
def make_group (db : DB) (group_name : String) (name0 summary0 : Option String) :
    DB × Except Err Json :=
  let name := name0.getD group_name
  let summary := summary0.getD ""
  if group_name.length > 128 then (db, .error (.abort 400 "group_name too long"))
  else if name.length > 256 then (db, .error (.abort 400 "group_name too long"))
  else if summary.length > 2560 then (db, .error (.abort 400 "summary too long"))
  else
    match find_group db group_name with
    | some _ => (db, .error (.abort 403 "Forbidden"))
    | none =>
      (saveGroup db ⟨group_name, name, summary⟩,
       .ok (Json.dcons "ok" (Json.jbool true) Json.dnil))

/-- One processing step of the actor: any handler applied to the current
database. The create step carries the uuid4 collision-freedom guarantee
for the generated record id. -/
inductive Step : DB → DB → Prop where
  | stepFollow : ∀ g a fid db, Step db (follow g a fid db).1
  | stepUndo : ∀ g a db, Step db (undo g a db).1
  | stepCreate : ∀ g a fid db, (∀ r ∈ db.activities, r.id ≠ fid) →
      Step db (create g a fid db).1
  | stepDelete : ∀ g a db, Step db (delete g a db).1
  | stepMakeGroup : ∀ gname n0 s0 db, Step db (make_group db gname n0 s0).1

/-! Concrete sample data used by witnesses and counterexamples. -/

def gClub : GroupRec := ⟨"club", "Book Club", "reads books"⟩

def aliceURI : String := "https://peer/actors/alice"

def bobURI : String := "https://peer/actors/bob"

/-- A database holding the club group and no members or ledger records. -/
def dbEmpty : DB := ⟨[gClub], [], []⟩

/-- A database where alice and bob are members of the club. -/
def dbAliceBob : DB := ⟨[gClub], [⟨"m1", aliceURI, "club"⟩, ⟨"m2", bobURI, "club"⟩], []⟩

/-! Helper lemmas about the stored tables. -/

theorem find?_append_some {α : Type} (p : α → Bool) (l1 l2 : List α) (a : α)
    (h : l1.find? p = some a) : (l1 ++ l2).find? p = some a := by
  rw [List.find?_append, h]; rfl

theorem find?_append_none {α : Type} (p : α → Bool) (l1 l2 : List α)
    (h : l1.find? p = none) : (l1 ++ l2).find? p = l2.find? p := by
  rw [List.find?_append, h]; rfl

/-- The membership filter of a pair is empty when the pair count is zero. -/
theorem pair_filter_eq_nil {db : DB} {gid f : String} (h : pairCount db gid f = 0) :
    db.members.filter (fun m => m.follower_id == f && m.group_id == gid) = [] :=
  List.length_eq_zero.mp h

/-- Saving a fresh edge for an absent pair brings the pair count to one. -/
theorem pairCount_saveMember_new (db : DB) (gid f i : String)
    (h : pairCount db gid f = 0) :
    pairCount (saveMember db ⟨i, f, gid⟩) gid f = 1 := by
  have hnil := pair_filter_eq_nil h
  have hall := List.filter_eq_nil_iff.mp hnil
  unfold pairCount saveMember
  simp only [List.filter_append, List.length_append]
  have h2 : (db.members.filter (fun x => x.id != i)).filter
      (fun m => m.follower_id == f && m.group_id == gid) = [] := by
    rw [List.filter_filter]
    refine List.filter_eq_nil_iff.mpr ?_
    intro x hx
    have := hall x hx
    simp only [Bool.and_eq_true, beq_iff_eq, not_and] at this ⊢
    intro hco
    exact (this hco.1 hco.2).elim
  rw [h2]
  simp

/-! Claim theorems. -/

/-- Claim C10: the registered Delete handler performs no state change for
every input, touching neither the membership store, the ledger, nor the
group record, and produces no result value (Python None). -/
theorem delete_is_total_noop (g : GroupRec) (a : Activity) (db : DB) :
    delete g a db = (db, [], .ok HandlerResult.noResult) := rfl

/-- Claim C5, behaviour at the failing input: an Undo whose object has no
type field (here the empty object) makes the handler call .lower() on
None, raising an AttributeError instead of returning success. -/
theorem undo_missing_type_attribute_error :
    undo gClub ⟨aliceURI, some Json.dnil⟩ dbEmpty =
      (dbEmpty, [], .error (.attributeError "object has no attribute lower")) := rfl

/-- Claim C2, counterexample to the statement as given: a Create activity
with no object field whose actor is not a member is rejected with the
missing-object abort (400), not with the NotAMember abort (401). -/
theorem create_nonmember_not_always_notamember :
    aliceURI ∉ (group_members dbEmpty gClub.id).toFinset ∧
    create gClub ⟨aliceURI, none⟩ "ann0" dbEmpty =
      (dbEmpty, [], .error (.abort 400 "activity not detailed")) ∧
    (create gClub ⟨aliceURI, none⟩ "ann0" dbEmpty).2.2 ≠
      .error (.abort 401 "actor needs to be member of the group") := by
  refine ⟨by decide, rfl, by decide⟩

/-- Claim C2 as amended: for every Create activity carrying an extractable
object identifier whose actor is not currently a member of the group, the
handler rejects with the NotAMember abort (401), the database is unchanged
and no external delivery call is made. -/
theorem create_nonmember_rejected (g : GroupRec) (a : Activity) (fid : String)
    (db : DB) (details aid : Json) (hobj : a.object = some details)
    (hext : extractId details = .ok (some aid))
    (hmem : a.actor ∉ (group_members db g.id).toFinset) :
    create g a fid db =
      (db, [], .error (.abort 401 "actor needs to be member of the group")) := by
  unfold create
  rw [hobj]
  dsimp only
  rw [hext]
  dsimp only
  rw [if_pos hmem]

/-- Witness for the amended claim C2 at a concrete non-member Create. -/
theorem create_nonmember_rejected_witness :
    create gClub ⟨aliceURI, some (Json.str "https://peer/objects/42")⟩ "ann0" dbEmpty =
      (dbEmpty, [], .error (.abort 401 "actor needs to be member of the group")) :=
  create_nonmember_rejected gClub ⟨aliceURI, some (Json.str "https://peer/objects/42")⟩
    "ann0" dbEmpty (Json.str "https://peer/objects/42") (Json.str "https://peer/objects/42")
    rfl rfl (by decide)

/-- Claim C9: make_group fails when a field exceeds its length bound
(group_name 128, name 256, summary 2560) or when the id is already
registered, storing nothing in those cases; otherwise it stores the group
and reports success. -/
theorem make_group_validates (db : DB) (group_name : String)
    (name0 summary0 : Option String) :
    (group_name.length > 128 ∨ (name0.getD group_name).length > 256 ∨
        (summary0.getD "").length > 2560 ∨ (find_group db group_name).isSome = true →
      (make_group db group_name name0 summary0).1 = db ∧
      ∃ e, (make_group db group_name name0 summary0).2 = .error e) ∧
    (group_name.length ≤ 128 → (name0.getD group_name).length ≤ 256 →
        (summary0.getD "").length ≤ 2560 → find_group db group_name = none →
      make_group db group_name name0 summary0 =
        (saveGroup db ⟨group_name, name0.getD group_name, summary0.getD ""⟩,
         .ok (Json.dcons "ok" (Json.jbool true) Json.dnil))) := by
  constructor
  · intro h
    unfold make_group
    dsimp only
    split_ifs with h1 h2 h3
    · exact ⟨rfl, _, rfl⟩
    · exact ⟨rfl, _, rfl⟩
    · exact ⟨rfl, _, rfl⟩
    · cases hfg : find_group db group_name with
      | some g0 => exact ⟨rfl, _, rfl⟩
      | none =>
        rcases h with h | h | h | h
        · omega
        · omega
        · omega
        · simp [hfg] at h
  · intro h1 h2 h3 hfg
    unfold make_group
    dsimp only
    rw [if_neg (by omega), if_neg (by omega), if_neg (by omega), hfg]

/-- Witness for claim C9 at a concrete fresh registration. -/
theorem make_group_validates_witness :
    make_group dbEmpty "book-club" none none =
      (saveGroup dbEmpty ⟨"book-club", "book-club", ""⟩,
       .ok (Json.dcons "ok" (Json.jbool true) Json.dnil)) :=
  (make_group_validates dbEmpty "book-club" none none).2
    (by decide) (by decide) (by decide) (by decide)

/-- A well-formed Follow activity from alice targeting the club actor. -/
def aFollow : Activity := ⟨aliceURI, some (Json.str (urlForActor gClub.id))⟩

/-- The inner Follow action carried by a well-formed Undo from alice. -/
def undoAction : Json :=
  Json.dcons "type" (Json.str "Follow")
    (Json.dcons "actor" (Json.str aliceURI)
      (Json.dcons "object" (Json.str (urlForActor gClub.id)) Json.dnil))

/-- A well-formed Undo(Follow) activity from alice against the club. -/
def aUndo : Activity := ⟨aliceURI, some undoAction⟩

/-- Claim C1: a valid Follow issued twice in sequence yields exactly one
membership edge for the pair, both calls return done, and the second call
writes nothing and emits no second Accept. The hypothesis pairCount le one
is the documented set invariant of the membership table. -/
theorem follow_idempotent (g : GroupRec) (a : Activity) (id1 id2 : String) (db : DB)
    (hv : a.object = some (Json.str (urlForActor g.id)))
    (hinv : pairCount db g.id a.actor ≤ 1) :
    ∃ db1 calls1,
      follow g a id1 db = (db1, calls1, .ok .done) ∧
      follow g a id2 db1 = (db1, [], .ok .done) ∧
      pairCount db1 g.id a.actor = 1 := by
  have hv2 : ¬ (a.object ≠ some (Json.str (urlForActor g.id))) := by simp [hv]
  rcases Nat.eq_zero_or_pos (pairCount db g.id a.actor) with h0 | hpos
  · have h1 := pairCount_saveMember_new db g.id a.actor id1 h0
    refine ⟨saveMember db ⟨id1, a.actor, g.id⟩, [.acceptObject g.id a.actor a], ?_, ?_, h1⟩
    · unfold follow
      dsimp only
      rw [if_neg hv2, if_neg (by omega)]
    · unfold follow
      dsimp only
      rw [if_neg hv2, if_pos (by omega)]
  · have h1 : pairCount db g.id a.actor = 1 := le_antisymm hinv hpos
    refine ⟨db, [], ?_, ?_, h1⟩
    · unfold follow
      dsimp only
      rw [if_neg hv2, if_pos hpos]
    · unfold follow
      dsimp only
      rw [if_neg hv2, if_pos hpos]

/-- Witness for claim C1: alice follows the club twice from the empty
membership state. -/
theorem follow_idempotent_witness :
    ∃ db1 calls1,
      follow gClub aFollow "id1" dbEmpty = (db1, calls1, .ok .done) ∧
      follow gClub aFollow "id2" db1 = (db1, [], .ok .done) ∧
      pairCount db1 gClub.id aFollow.actor = 1 :=
  follow_idempotent gClub aFollow "id1" "id2" dbEmpty rfl (by decide)

/-- The pair filter rejects every stored member when the pair count is
zero, so the corresponding find? comes up empty. -/
theorem pair_find?_eq_none {db : DB} {gid f : String} (h : pairCount db gid f = 0) :
    db.members.find? (fun m => m.follower_id == f && m.group_id == gid) = none := by
  apply List.find?_eq_none.mpr
  intro x hx
  exact List.filter_eq_nil_iff.mp (pair_filter_eq_nil h) x hx

/-- Claim C6: a valid Undo(Follow) issued when no membership edge exists
for the pair returns done and leaves the whole database unchanged. -/
theorem undo_idempotent_when_absent (g : GroupRec) (a : Activity) (db : DB)
    (act : Json) (ty : String)
    (hobj : a.object = some act)
    (hty : pyGet act "type" = .ok (some (Json.str ty)))
    (hlow : strLower ty = "follow")
    (hact : pyGet act "actor" = .ok (some (Json.str a.actor)))
    (htgt : pyGet act "object" = .ok (some (Json.str (urlForActor g.id))))
    (h0 : pairCount db g.id a.actor = 0) :
    undo g a db = (db, [], .ok .done) := by
  have hfind := pair_find?_eq_none h0
  unfold undo
  rw [hobj]
  simp only [Option.getD, hty, pyLower, hlow, hact, htgt, hfind]
  simp

/-- Witness for claim C6: alice undoes an absent membership. -/
theorem undo_idempotent_when_absent_witness :
    undo gClub aUndo dbEmpty = (dbEmpty, [], .ok .done) :=
  undo_idempotent_when_absent gClub aUndo dbEmpty undoAction "Follow"
    rfl rfl (by decide) rfl rfl (by decide)

/-- Claim C7: for a follower not initially a member, a valid Follow and
then a valid Undo of that Follow return the database to exactly its prior
state, with the follower absent. The generated edge id is assumed fresh,
matching the uuid4 generation discipline. -/
theorem follow_undo_inverse (g : GroupRec) (a u : Activity) (fid : String) (db : DB)
    (act : Json) (ty : String)
    (hfa : u.actor = a.actor)
    (hv : a.object = some (Json.str (urlForActor g.id)))
    (huo : u.object = some act)
    (hty : pyGet act "type" = .ok (some (Json.str ty)))
    (hlow : strLower ty = "follow")
    (hact : pyGet act "actor" = .ok (some (Json.str u.actor)))
    (htgt : pyGet act "object" = .ok (some (Json.str (urlForActor g.id))))
    (h0 : pairCount db g.id a.actor = 0)
    (hfresh : ∀ m ∈ db.members, m.id ≠ fid) :
    ∃ calls1,
      follow g a fid db = (saveMember db ⟨fid, a.actor, g.id⟩, calls1, .ok .done) ∧
      undo g u (saveMember db ⟨fid, a.actor, g.id⟩) = (db, [], .ok .done) ∧
      pairCount db g.id a.actor = 0 := by
  have hv2 : ¬ (a.object ≠ some (Json.str (urlForActor g.id))) := by simp [hv]
  have hid : db.members.filter (fun x => x.id != fid) = db.members := by
    apply List.filter_eq_self.mpr
    intro x hx
    simpa using hfresh x hx
  have hmem1 : (saveMember db ⟨fid, a.actor, g.id⟩).members =
      db.members ++ [⟨fid, a.actor, g.id⟩] := by
    unfold saveMember
    dsimp only
    rw [hid]
  refine ⟨[.acceptObject g.id a.actor a], ?_, ?_, h0⟩
  · unfold follow
    dsimp only
    rw [if_neg hv2, if_neg (by omega)]
  · have hfind : ((saveMember db ⟨fid, a.actor, g.id⟩).members.find?
        (fun m => m.follower_id == u.actor && m.group_id == g.id)) =
        some ⟨fid, a.actor, g.id⟩ := by
      rw [hmem1, hfa, find?_append_none _ _ _ (pair_find?_eq_none h0)]
      simp [List.find?]
    have hflt : ((saveMember db ⟨fid, a.actor, g.id⟩).members.filter
        (fun x => x.id != fid)) = db.members := by
      rw [hmem1, List.filter_append, hid]
      simp
    have hdel : deleteMember (saveMember db ⟨fid, a.actor, g.id⟩) fid = db := by
      unfold deleteMember
      rw [hflt]
      rfl
    unfold undo
    rw [huo]
    simp only [Option.getD, hty, pyLower, hlow, hact, htgt, hfind]
    simp [hdel]

/-- Witness for claim C7: alice follows the club and then undoes it,
starting from the empty membership state. -/
theorem follow_undo_inverse_witness :
    ∃ calls1,
      follow gClub aFollow "id7" dbEmpty =
        (saveMember dbEmpty ⟨"id7", aFollow.actor, gClub.id⟩, calls1, .ok .done) ∧
      undo gClub aUndo (saveMember dbEmpty ⟨"id7", aFollow.actor, gClub.id⟩) =
        (dbEmpty, [], .ok .done) ∧
      pairCount dbEmpty gClub.id aFollow.actor = 0 :=
  follow_undo_inverse gClub aFollow aUndo "id7" dbEmpty undoAction "Follow"
    rfl rfl rfl rfl (by decide) rfl rfl (by decide) (by simp [dbEmpty])

/-- Claim C3, behaviour at the failing input: a successful Create by alice
in a club whose members are alice and bob invokes the announce transport
exactly once with recipients bob only and the object id, but the announce
URI argument is the one-element tuple produced by the trailing comma on
group.py line 135, not the URI string itself. -/
theorem create_fanout_passes_tuple_uri :
    create gClub ⟨aliceURI, some (Json.str "https://peer/objects/42")⟩ "ann1" dbAliceBob =
      (saveActivity dbAliceBob ⟨"ann1", "Announce", gClub.id, Json.str "https://peer/objects/42"⟩,
       [ExtCall.announceObject gClub.id {bobURI} (Json.str "https://peer/objects/42")
          [urlForAnnounce "ann1"]],
       .ok (.announced (serialize_announce
          ⟨"ann1", "Announce", gClub.id, Json.str "https://peer/objects/42"⟩))) := by
  decide

/-- A database holding one member (alice) and one ledger record whose id
is dup, used to exercise an id collision on append. -/
def dbWithDup : DB :=
  ⟨[gClub], [⟨"m1", aliceURI, "club"⟩], [⟨"dup", "Announce", "club", Json.str "old-object"⟩]⟩

/-- Claim C8, counterexample to the statement as given: appending an
announce record under an id that already exists in the ledger does not
fail with DuplicateId; the create succeeds and the old record is silently
overwritten. -/
theorem ledger_append_no_duplicate_check :
    (∃ r ∈ dbWithDup.activities, r.id = "dup") ∧
    (create gClub ⟨aliceURI, some (Json.str "new-object")⟩ "dup" dbWithDup).2.2 =
      .ok (.announced (serialize_announce ⟨"dup", "Announce", "club", Json.str "new-object"⟩)) ∧
    (create gClub ⟨aliceURI, some (Json.str "new-object")⟩ "dup" dbWithDup).1.activities =
      [⟨"dup", "Announce", "club", Json.str "new-object"⟩] := by
  refine ⟨⟨⟨"dup", "Announce", "club", Json.str "old-object"⟩, by decide, rfl⟩, by decide, by decide⟩

/-- Claim C8 as amended: the ledger append performed by a successful
Create is an unconditional upsert: it never fails with DuplicateId, it
replaces any record already stored under the same id, and afterwards
exactly one record with that id is stored. -/
theorem create_ledger_append_upserts (g : GroupRec) (a : Activity) (fid : String)
    (db : DB) (details aid : Json) (hobj : a.object = some details)
    (hext : extractId details = .ok (some aid))
    (hmem : a.actor ∈ (group_members db g.id).toFinset) :
    ∃ calls r,
      create g a fid db =
        ({ db with activities := db.activities.filter (fun x => x.id != fid) ++
            [⟨fid, "Announce", g.id, aid⟩] }, calls, .ok r) ∧
      (create g a fid db).1.activities.filter (fun x => x.id == fid) =
        [⟨fid, "Announce", g.id, aid⟩] := by
  have hred : create g a fid db =
      (saveActivity db ⟨fid, "Announce", g.id, aid⟩,
       [.announceObject g.id (((group_members db g.id).toFinset).erase a.actor) aid
          [urlForAnnounce fid]],
       .ok (.announced (serialize_announce ⟨fid, "Announce", g.id, aid⟩))) := by
    unfold create
    rw [hobj]
    dsimp only
    rw [hext]
    dsimp only
    rw [if_neg (not_not_intro hmem)]
  refine ⟨[.announceObject g.id (((group_members db g.id).toFinset).erase a.actor) aid
      [urlForAnnounce fid]],
    .announced (serialize_announce ⟨fid, "Announce", g.id, aid⟩), ?_, ?_⟩
  · rw [hred]; rfl
  · rw [hred]
    dsimp only [saveActivity]
    rw [List.filter_append, List.filter_filter]
    have h1 : (db.activities.filter
        (fun a => (a.id == fid) && (a.id != fid))) = [] := by
      apply List.filter_eq_nil_iff.mpr
      intro x hx
      simp
    rw [h1]
    simp

/-- Witness for the amended claim C8 at the concrete id collision. -/
theorem create_ledger_append_upserts_witness :
    ∃ calls r,
      create gClub ⟨aliceURI, some (Json.str "new-object")⟩ "dup" dbWithDup =
        ({ dbWithDup with activities := dbWithDup.activities.filter (fun x => x.id != "dup") ++
            [⟨"dup", "Announce", gClub.id, Json.str "new-object"⟩] }, calls, .ok r) ∧
      (create gClub ⟨aliceURI, some (Json.str "new-object")⟩ "dup" dbWithDup).1.activities.filter
          (fun x => x.id == "dup") =
        [⟨"dup", "Announce", gClub.id, Json.str "new-object"⟩] :=
  create_ledger_append_upserts gClub ⟨aliceURI, some (Json.str "new-object")⟩ "dup" dbWithDup
    (Json.str "new-object") (Json.str "new-object") rfl rfl (by decide)

/-! Frame lemmas: which handlers can touch the ledger table. -/

theorem follow_preserves_activities (g : GroupRec) (a : Activity) (fid : String)
    (db : DB) : (follow g a fid db).1.activities = db.activities := by
  unfold follow
  dsimp only
  split
  · rfl
  · split
    · rfl
    · rfl

theorem undo_preserves_activities (g : GroupRec) (a : Activity) (db : DB) :
    (undo g a db).1.activities = db.activities := by
  unfold undo
  dsimp only
  repeat' split
  all_goals rfl

theorem make_group_preserves_activities (db : DB) (gname : String)
    (n0 s0 : Option String) : (make_group db gname n0 s0).1.activities = db.activities := by
  unfold make_group
  dsimp only
  repeat' split
  all_goals rfl

/-- The ledger list produced by create: unchanged on every rejection path,
an upsert of the new record on success. -/
theorem create_activities_cases (g : GroupRec) (a : Activity) (fid : String) (db : DB) :
    (create g a fid db).1.activities = db.activities ∨
    ∃ aid, (create g a fid db).1.activities =
      db.activities.filter (fun x => x.id != fid) ++ [⟨fid, "Announce", g.id, aid⟩] := by
  unfold create
  cases a.object with
  | none => left; rfl
  | some details =>
    dsimp only
    cases hext : extractId details with
    | error e => left; rfl
    | ok o =>
      cases o with
      | none => left; rfl
      | some aid =>
        dsimp only
        by_cases hm : a.actor ∉ (group_members db g.id).toFinset
        · rw [if_pos hm]; left; rfl
        · rw [if_neg hm]; right; exact ⟨aid, rfl⟩

/-- Filtering out a different id does not change a point lookup. -/
theorem find?_id_filter_ne (l : List GroupActivity) (i fid : String) (hne : i ≠ fid) :
    (l.filter (fun x => x.id != fid)).find? (fun x => x.id == i) =
    l.find? (fun x => x.id == i) := by
  induction l with
  | nil => rfl
  | cons x t ih =>
    rw [List.filter_cons]
    by_cases hxf : (x.id != fid) = true
    · rw [if_pos hxf]
      by_cases hx : (x.id == i) = true
      · simp [List.find?, hx]
      · simp only [Bool.not_eq_true] at hx
        simp [List.find?, hx, ih]
    · rw [if_neg hxf]
      have hxfid : x.id = fid := by simpa using hxf
      have hx : (x.id == i) = false := by
        simp [hxfid]
        exact fun h => hne h.symm
      simp [List.find?, hx, ih]

/-- A stored ledger record survives any single processing step: no handler
ever mutates or deletes an existing announce record, and fresh-id creates
cannot collide with it. -/
theorem step_preserves_find (d1 d2 : DB) (i : String) (r : GroupActivity)
    (hstep : Step d1 d2)
    (h : d1.activities.find? (fun x => x.id == i) = some r) :
    d2.activities.find? (fun x => x.id == i) = some r := by
  cases hstep with
  | stepFollow g a fid db => rw [follow_preserves_activities]; exact h
  | stepUndo g a db => rw [undo_preserves_activities]; exact h
  | stepDelete g a db => exact h
  | stepMakeGroup gname n0 s0 db => rw [make_group_preserves_activities]; exact h
  | stepCreate g a fid dbx hf =>
    have hir : r.id = i := by simpa using List.find?_some h
    have hmem : r ∈ d1.activities := List.mem_of_find?_eq_some h
    have hif : i ≠ fid := hir ▸ hf r hmem
    rcases create_activities_cases g a fid d1 with hcc | ⟨aid, hcc⟩
    · rw [hcc]; exact h
    · rw [hcc]
      refine find?_append_some _ _ _ _ ?_
      rw [find?_id_filter_ne _ _ _ hif]
      exact h

/-- The saved record is the one found when looking its id up afterwards. -/
theorem saveActivity_find_self (db : DB) (rec : GroupActivity) :
    (saveActivity db rec).activities.find? (fun x => x.id == rec.id) = some rec := by
  unfold saveActivity
  dsimp only
  rw [find?_append_none]
  · simp [List.find?]
  · rw [List.find?_filter]
    apply List.find?_eq_none.mpr
    intro x hx
    simp

/-- Claim C4: a successful Create returns the serialized announce record,
and looking the generated id up through the retrieval endpoint returns an
equal object, both immediately and after any later sequence of processing
steps: the ledger never mutates a stored record. -/
theorem create_announce_roundtrip (g : GroupRec) (a : Activity) (fid : String)
    (db : DB) (details aid : Json) (hobj : a.object = some details)
    (hext : extractId details = .ok (some aid))
    (hmem : a.actor ∈ (group_members db g.id).toFinset)
    (hfresh : ∀ r ∈ db.activities, r.id ≠ fid) :
    ∃ db1 calls R,
      create g a fid db = (db1, calls, .ok (.announced R)) ∧
      R = serialize_announce ⟨fid, "Announce", g.id, aid⟩ ∧
      R.id = urlForAnnounce fid ∧ R.type = "Announce" ∧ R.actor = urlForActor g.id ∧
      R.object = aid ∧
      ∀ db2, Relation.ReflTransGen Step db1 db2 →
        announce_activity db2 fid = .ok R := by
  have hred : create g a fid db =
      (saveActivity db ⟨fid, "Announce", g.id, aid⟩,
       [.announceObject g.id (((group_members db g.id).toFinset).erase a.actor) aid
          [urlForAnnounce fid]],
       .ok (.announced (serialize_announce ⟨fid, "Announce", g.id, aid⟩))) := by
    unfold create
    rw [hobj]
    dsimp only
    rw [hext]
    dsimp only
    rw [if_neg (not_not_intro hmem)]
  refine ⟨saveActivity db ⟨fid, "Announce", g.id, aid⟩, _,
    serialize_announce ⟨fid, "Announce", g.id, aid⟩, hred, rfl, rfl, rfl, rfl, rfl, ?_⟩
  have hbase : (saveActivity db ⟨fid, "Announce", g.id, aid⟩).activities.find?
      (fun x => x.id == fid) = some ⟨fid, "Announce", g.id, aid⟩ :=
    saveActivity_find_self db ⟨fid, "Announce", g.id, aid⟩
  intro db2 hrt
  have hkey : db2.activities.find? (fun x => x.id == fid) =
      some ⟨fid, "Announce", g.id, aid⟩ := by
    induction hrt with
    | refl => exact hbase
    | tail hab hbc ih => exact step_preserves_find _ _ _ _ hbc ih
  unfold announce_activity
  rw [hkey]
  rfl

/-- Witness for claim C4: alice creates an object in the two-member club
and the record is immediately retrievable. -/
theorem create_announce_roundtrip_witness :
    ∃ db1 calls R,
      create gClub ⟨aliceURI, some (Json.str "https://peer/objects/42")⟩ "ann4" dbAliceBob =
        (db1, calls, .ok (.announced R)) ∧
      R = serialize_announce ⟨"ann4", "Announce", gClub.id, Json.str "https://peer/objects/42"⟩ ∧
      R.id = urlForAnnounce "ann4" ∧ R.type = "Announce" ∧ R.actor = urlForActor gClub.id ∧
      R.object = Json.str "https://peer/objects/42" ∧
      ∀ db2, Relation.ReflTransGen Step db1 db2 →
        announce_activity db2 "ann4" = .ok R :=
  create_announce_roundtrip gClub ⟨aliceURI, some (Json.str "https://peer/objects/42")⟩
    "ann4" dbAliceBob (Json.str "https://peer/objects/42") (Json.str "https://peer/objects/42")
    rfl rfl (by decide) (by simp [dbAliceBob])

end Federa
